import Mathlib

/-!
Shallow embedding of the jobguard-api risk-scoring and account-security
pipeline: the scam-analysis routine and risk-level derivation from
src/controllers/jobController.js and src/models/JobScan.js, the login
lockout counter from the user model, the report/view/alerts handlers,
and theorems checking the specification claims against them.
-/

namespace JobGuard

/-- JavaScript string truthiness for an optional string field:
`undefined` and the empty string are falsy, everything else truthy. -/
def truthy : Option String → Bool
  | none => false
  | some s => !s.isEmpty

/-- Character-wise lower casing, mirroring `String.prototype.toLowerCase`
on the ASCII rule keywords the scorer matches. -/
def jsToLower (s : String) : String :=
  ⟨s.data.map Char.toLower⟩

/-- `haystack.includes(needle)` on JavaScript strings: some suffix of the
haystack starts with the needle. -/
def strIncludes (s pat : String) : Bool :=
  (List.range (s.data.length + 1)).any fun i => pat.data.isPrefixOf (s.data.drop i)

/-- One warning flag as pushed by `performScamAnalysis`: `type`,
`severity`, human `description`, `detected`. -/
structure WarningFlag where
  type : String
  severity : String
  description : String
  detected : Bool
  deriving Repr, DecidableEq

/-- Submission fields read by `performScamAnalysis` (the job URL is
carried but never read by the scorer). -/
structure JobInput where
  jobUrl : Option String
  jobDescription : Option String
  companyEmail : Option String
  companyWebsite : Option String
  deriving Repr, DecidableEq

def unrealisticSalaryFlag : WarningFlag :=
  { type := "unrealistic_salary", severity := "high",
    description := "Job posting contains unrealistic salary claims", detected := true }

def upfrontPaymentFlag : WarningFlag :=
  { type := "upfront_payment", severity := "high",
    description := "Job requires upfront payment or fees", detected := true }

def pressureTacticsFlag : WarningFlag :=
  { type := "pressure_tactics", severity := "medium",
    description := "Job posting uses pressure or urgency language", detected := true }

def vagueDescriptionFlag : WarningFlag :=
  { type := "vague_description", severity := "medium",
    description := "Job description is unusually vague or short", detected := true }

def personalInfoRequestFlag : WarningFlag :=
  { type := "personal_info_request", severity := "high",
    description := "Job requests sensitive personal or financial information", detected := true }

def suspiciousEmailFlag : WarningFlag :=
  { type := "suspicious_email", severity := "medium",
    description := "Company uses a free email provider instead of a corporate domain", detected := true }

def noCompanyPresenceFlag : WarningFlag :=
  { type := "no_company_presence", severity := "medium",
    description := "No company website provided", detected := true }

/-- Keyword test of the `unrealistic_salary` rule. -/
def hasUnrealisticSalary (description : String) : Bool :=
  strIncludes description "earn $" ||
  strIncludes description "make money fast" ||
  strIncludes description "unlimited income" ||
  strIncludes description "get rich"

/-- Keyword test of the `upfront_payment` rule. -/
def hasUpfrontPayment (description : String) : Bool :=
  strIncludes description "pay" ||
  strIncludes description "fee" ||
  strIncludes description "deposit" ||
  strIncludes description "investment required"

/-- Keyword test of the `pressure_tactics` rule. -/
def hasPressureTactics (description : String) : Bool :=
  strIncludes description "act now" ||
  strIncludes description "limited time" ||
  strIncludes description "urgent" ||
  strIncludes description "immediate start"

/-- Keyword test of the `personal_info_request` rule. -/
def hasPersonalInfoRequest (description : String) : Bool :=
  strIncludes description "social security" ||
  strIncludes description "ssn" ||
  strIncludes description "bank account" ||
  strIncludes description "credit card"

/-- The free e-mail providers list of the `suspicious_email` rule. -/
def freeProviders : List String :=
  ["gmail.com", "yahoo.com", "hotmail.com", "outlook.com"]

/-- Split a character list on a separator character, like
`String.prototype.split` with a one-character separator. -/
def splitOnCharAux (c : Char) : List Char → List Char → List (List Char)
  | [], acc => [acc.reverse]
  | x :: xs, acc =>
    if x = c then acc.reverse :: splitOnCharAux c xs []
    else splitOnCharAux c xs (x :: acc)

def splitOnChar (c : Char) (s : String) : List String :=
  (splitOnCharAux c s.data []).map fun l => ⟨l⟩

/-- `email.split('@')[1]`: the part after the first `@`, when present. -/
def emailDomain (email : String) : Option String :=
  (splitOnChar '@' email).get? 1

def domainIsFree : Option String → Bool
  | none => false
  | some d => freeProviders.contains d

structure CompanyLegitimacy where
  score : Int
  details : String
  deriving Repr, DecidableEq

structure WebsiteAnalysis where
  exists_ : Bool
  details : String
  deriving Repr, DecidableEq

structure EmailAnalysis where
  isValidDomain : Bool
  isFreeProvider : Bool
  details : String
  deriving Repr, DecidableEq

structure ContentAnalysis where
  clarity : Int
  authenticity : Int
  details : String
  deriving Repr, DecidableEq

structure AnalysisDetails where
  companyLegitimacy : CompanyLegitimacy
  websiteAnalysis : WebsiteAnalysis
  emailAnalysis : EmailAnalysis
  contentAnalysis : ContentAnalysis
  deriving Repr, DecidableEq

structure ScamAnalysis where
  warningFlags : List WarningFlag
  scamProbability : Nat
  details : AnalysisDetails
  deriving Repr, DecidableEq

/-- The description block of `performScamAnalysis`: when the description
is truthy, lower-case it and evaluate the five text rules in source order,
pushing a flag and adding the score for each rule that fires. -/
def analyzeDescription (j : JobInput) : List WarningFlag × Nat :=
  if truthy j.jobDescription then
    let description := jsToLower (j.jobDescription.getD "")
    let st : List WarningFlag × Nat := ([], 0)
    let st := if hasUnrealisticSalary description then
      (st.1 ++ [unrealisticSalaryFlag], st.2 + 25) else st
    let st := if hasUpfrontPayment description then
      (st.1 ++ [upfrontPaymentFlag], st.2 + 30) else st
    let st := if hasPressureTactics description then
      (st.1 ++ [pressureTacticsFlag], st.2 + 15) else st
    let st := if description.length < 100 then
      (st.1 ++ [vagueDescriptionFlag], st.2 + 10) else st
    let st := if hasPersonalInfoRequest description then
      (st.1 ++ [personalInfoRequestFlag], st.2 + 30) else st
    st
  else ([], 0)

/-- The company-email block of `performScamAnalysis`: when the email is
truthy, lower-case it and flag a free-provider domain. -/
def analyzeEmail (j : JobInput) (st : List WarningFlag × Nat) :
    List WarningFlag × Nat :=
  if truthy j.companyEmail then
    let email := jsToLower (j.companyEmail.getD "")
    if domainIsFree (emailDomain email) then
      (st.1 ++ [suspiciousEmailFlag], st.2 + 15)
    else st
  else st

/-- The company-website block of `performScamAnalysis`: flag a missing or
empty website. -/
def analyzeWebsite (j : JobInput) (st : List WarningFlag × Nat) :
    List WarningFlag × Nat :=
  if !truthy j.companyWebsite || (j.companyWebsite.getD "").length = 0 then
    (st.1 ++ [noCompanyPresenceFlag], st.2 + 10)
  else st

/-- The `performScamAnalysis` helper of `src/controllers/jobController.js`:
sequentially evaluates the seven rules, accumulating the warning-flag list
and the raw scam score, then caps the probability at 100 and assembles the
details object (whose `companyLegitimacy.score` uses the uncapped score). -/
def performScamAnalysis (j : JobInput) : ScamAnalysis :=
  let finalStep : List WarningFlag × Nat :=
    analyzeWebsite j (analyzeEmail j (analyzeDescription j))
  let scamScore := finalStep.2
  { warningFlags := finalStep.1
    scamProbability := min scamScore 100
    details :=
      { companyLegitimacy :=
          { score := 100 - (scamScore : Int)
            details := "Analysis based on " ++ toString finalStep.1.length ++ " warning flags" }
        websiteAnalysis :=
          { exists_ := truthy j.companyWebsite
            details := if truthy j.companyWebsite then "Website provided"
                       else "No website provided" }
        emailAnalysis :=
          { isValidDomain :=
              if truthy j.companyEmail then
                !strIncludes (j.companyEmail.getD "") "@gmail" else false
            isFreeProvider :=
              if truthy j.companyEmail then
                strIncludes (j.companyEmail.getD "") "@gmail" ||
                strIncludes (j.companyEmail.getD "") "@yahoo"
              else false
            details := "Email domain analyzed" }
        contentAnalysis :=
          { clarity :=
              if truthy j.jobDescription then max 0 (100 - (scamScore : Int)) else 0
            authenticity := max 0 (100 - (scamScore : Int))
            details := "Job description analyzed for scam patterns" } } }

/-- `jobScanSchema.methods.calculateRiskLevel` of `src/models/JobScan.js`:
counts detected high- and medium-severity flags and derives the level. -/
def calculateRiskLevel (warningFlags : List WarningFlag) (scamProbability : Nat) : String :=
  let highSeverityCount :=
    (warningFlags.filter fun flag => flag.detected && flag.severity == "high").length
  let mediumSeverityCount :=
    (warningFlags.filter fun flag => flag.detected && flag.severity == "medium").length
  if highSeverityCount ≥ 2 || scamProbability ≥ 70 then "high"
  else if highSeverityCount ≥ 1 || mediumSeverityCount ≥ 2 || scamProbability ≥ 40 then "medium"
  else "low"

/-! ### Account lockout counter (user model) -/

/-- The lockout-relevant part of a user document: consecutive failed-login
counter and the optional lock-until timestamp (milliseconds). -/
structure UserState where
  loginAttempts : Nat
  lockUntil : Option Nat
  deriving Repr, DecidableEq

/-- The `isLocked` virtual: a lock timestamp exists and lies in the future. -/
def isLocked (u : UserState) (now : Nat) : Bool :=
  match u.lockUntil with
  | some t => now < t
  | none => false

/-- A lock timestamp exists and has already passed. -/
def lockExpired (u : UserState) (now : Nat) : Bool :=
  match u.lockUntil with
  | some t => t < now
  | none => false

def maxAttempts : Nat := 5

/-- Two hours in milliseconds. -/
def lockTime : Nat := 2 * 60 * 60 * 1000

/-- `userSchema.methods.incLoginAttempts`: on an expired lock, restart the
counter at 1 and clear the lock; otherwise increment the counter, and set
`lockUntil = now + lockTime` when this failure reaches `maxAttempts` while
the account is not currently locked. -/
def incLoginAttempts (u : UserState) (now : Nat) : UserState :=
  if lockExpired u now then
    { loginAttempts := 1, lockUntil := none }
  else if u.loginAttempts + 1 ≥ maxAttempts && !isLocked u now then
    { loginAttempts := u.loginAttempts + 1, lockUntil := some (now + lockTime) }
  else
    { loginAttempts := u.loginAttempts + 1, lockUntil := u.lockUntil }

/-- `userSchema.methods.resetLoginAttempts`: counter to 0, lock cleared. -/
def resetLoginAttempts (_u : UserState) : UserState :=
  { loginAttempts := 0, lockUntil := none }

/-! ### Job-scan document handlers -/

/-- The authenticated requester as seen by the handlers: user id and role. -/
structure Requester where
  id : String
  role : String
  deriving Repr, DecidableEq

/-- The persisted job-scan fields the handlers read and write. -/
structure JobScanDoc where
  user : String
  status : String
  riskLevel : String
  scamProbability : Nat
  warningFlags : List WarningFlag
  reportViewed : Bool
  reportViewedAt : Option Nat
  isReported : Bool
  reportReason : Option String
  deriving Repr, DecidableEq

/-- `getJobScan` of `src/controllers/jobController.js` on a looked-up
document: 404 when absent, 403 when the requester neither owns the scan nor
is an admin, otherwise mark the scan viewed if it was not yet viewed and
respond 200.  Returns the persisted document (if any) and the status code. -/
def getJobScan (requester : Requester) (found : Option JobScanDoc) (now : Nat) :
    Option JobScanDoc × Nat :=
  match found with
  | none => (none, 404)
  | some jobScan =>
    if jobScan.user != requester.id && requester.role != "admin" then
      (some jobScan, 403)
    else
      let jobScan :=
        if !jobScan.reportViewed then
          { jobScan with reportViewed := true, reportViewedAt := some now }
        else jobScan
      (some jobScan, 200)

/-- `reportJob` of `src/controllers/jobController.js` on a looked-up
document: 404 when absent; otherwise it sets `isReported` and
`reportReason` and responds 200 — the source performs no ownership or role
check on this route. -/
def reportJob (_requester : Requester) (found : Option JobScanDoc)
    (reason : Option String) : Option JobScanDoc × Nat :=
  match found with
  | none => (none, 404)
  | some jobScan =>
    (some { jobScan with isReported := true, reportReason := reason }, 200)

/-- `createJobScan` of `src/controllers/jobController.js`, with the
fallibility of the scoring-and-persist step made explicit: a draft document
is persisted with status `analyzing`; on success the analysis results, the
derived risk level and status `completed` are written back (201); on an
exception the catch block only cleans up the uploaded file and forwards the
error (500) — the persisted draft is not updated. -/
def createJobScan (owner : String) (j : JobInput) (scoringThrows : Bool) :
    JobScanDoc × Nat :=
  let draft : JobScanDoc :=
    { user := owner, status := "analyzing", riskLevel := "low",
      scamProbability := 0, warningFlags := [], reportViewed := false,
      reportViewedAt := none, isReported := false, reportReason := none }
  if scoringThrows then
    (draft, 500)
  else
    let analysisResults := performScamAnalysis j
    ({ draft with
        warningFlags := analysisResults.warningFlags
        scamProbability := analysisResults.scamProbability
        riskLevel := calculateRiskLevel analysisResults.warningFlags
          analysisResults.scamProbability
        status := "completed" }, 201)

/-! ### Public alerts feed (analytics controller) -/

/-- The stored fields `getAlerts` selects from a job-scan record. -/
structure StoredScan where
  user : String
  status : String
  riskLevel : String
  scamProbability : Nat
  warningFlags : List WarningFlag
  companyName : Option String
  jobTitle : Option String
  location : Option String
  createdAt : Nat
  deriving Repr, DecidableEq

/-- One formatted public alert: only the safe field subset, flags without
their `detected` marker. -/
structure Alert where
  company : String
  jobTitle : String
  location : String
  riskLevel : String
  scamProbability : Nat
  warningFlags : List (String × String × String)
  detectedAt : Nat
  deriving Repr, DecidableEq, Inhabited

/-- `-createdAt` ordering: newest first. -/
def newestFirst (a b : StoredScan) : Prop :=
  b.createdAt ≤ a.createdAt

instance : DecidableRel newestFirst := fun a b =>
  inferInstanceAs (Decidable (b.createdAt ≤ a.createdAt))

instance : IsTotal StoredScan newestFirst :=
  ⟨fun a b => Nat.le_total b.createdAt a.createdAt⟩

instance : IsTrans StoredScan newestFirst :=
  ⟨fun _ _ _ hab hbc => Nat.le_trans hbc hab⟩

/-- The query filter of `getAlerts`: risk in `[high, medium]` and
status `completed`. -/
def alertsFilter (s : StoredScan) : Bool :=
  (s.riskLevel == "high" || s.riskLevel == "medium") && s.status == "completed"

/-- The per-record formatting of `getAlerts`, with its `|| default`
fallbacks and the `detected` filter on flags. -/
def formatAlert (s : StoredScan) : Alert :=
  { company := if truthy s.companyName then s.companyName.getD "" else "Unknown Company"
    jobTitle := if truthy s.jobTitle then s.jobTitle.getD "" else "Untitled Position"
    location := if truthy s.location then s.location.getD "" else "Remote"
    riskLevel := s.riskLevel
    scamProbability := s.scamProbability
    warningFlags := (s.warningFlags.filter fun f => f.detected).map
      fun f => (f.type, f.severity, f.description)
    detectedAt := s.createdAt }

/-- `parseInt(req.query.limit, 10) || 10`: an absent (or unparsable, or
zero) limit falls back to 10. -/
def effectiveLimit : Option Nat → Nat
  | none => 10
  | some n => if n = 0 then 10 else n

/-- `getAlerts` of the analytics controller over a modelled store: filter
to completed medium/high scans, sort newest first, take `limit` records
(no cap is applied to the client-supplied limit), format each. -/
def getAlerts (store : List StoredScan) (limitParam : Option Nat) : List Alert :=
  let limit := effectiveLimit limitParam
  let alerts := ((store.filter alertsFilter).insertionSort newestFirst).take limit
  alerts.map formatAlert

/-! ### Spec-side definitions and shared helper lemmas -/

/-- Number of detected flags of the given severity, as the spec counts. -/
def detectedWithSeverity (warningFlags : List WarningFlag) (sev : String) : Nat :=
  (warningFlags.filter fun flag => flag.detected && flag.severity == sev).length

/-- Risk level written from the words of the spec: high on at least two
detected high-severity flags or probability at least 70; else medium on at
least one detected high-severity flag, at least two detected
medium-severity flags, or probability at least 40; else low. -/
def specRiskLevel (warningFlags : List WarningFlag) (probability : Nat) : String :=
  if 2 ≤ detectedWithSeverity warningFlags "high" ∨ 70 ≤ probability then "high"
  else if 1 ≤ detectedWithSeverity warningFlags "high" ∨
      2 ≤ detectedWithSeverity warningFlags "medium" ∨ 40 ≤ probability then "medium"
  else "low"

/-- The score each rule contributes, keyed by the flag type it emits. -/
def ruleScore (t : String) : Nat :=
  if t == "unrealistic_salary" then 25
  else if t == "upfront_payment" then 30
  else if t == "pressure_tactics" then 15
  else if t == "vague_description" then 10
  else if t == "personal_info_request" then 30
  else if t == "suspicious_email" then 15
  else if t == "no_company_presence" then 10
  else 0

/-- Sum of the rule scores of a flag list. -/
def flagScoreSum (warningFlags : List WarningFlag) : Nat :=
  (warningFlags.map fun f => ruleScore f.type).sum

theorem analyzeDescription_sum (j : JobInput) :
    (analyzeDescription j).2 = flagScoreSum (analyzeDescription j).1 := by
  unfold analyzeDescription
  dsimp only
  split_ifs <;>
    simp [flagScoreSum, ruleScore, unrealisticSalaryFlag, upfrontPaymentFlag,
      pressureTacticsFlag, vagueDescriptionFlag, personalInfoRequestFlag]

theorem analyzeEmail_sum (j : JobInput) (st : List WarningFlag × Nat)
    (h : st.2 = flagScoreSum st.1) :
    (analyzeEmail j st).2 = flagScoreSum (analyzeEmail j st).1 := by
  unfold analyzeEmail
  dsimp only
  split_ifs <;> simp [flagScoreSum, ruleScore, suspiciousEmailFlag, h]

theorem analyzeWebsite_sum (j : JobInput) (st : List WarningFlag × Nat)
    (h : st.2 = flagScoreSum st.1) :
    (analyzeWebsite j st).2 = flagScoreSum (analyzeWebsite j st).1 := by
  unfold analyzeWebsite
  split_ifs <;> simp [flagScoreSum, ruleScore, noCompanyPresenceFlag, h]

/-- The accumulated raw score always equals the sum of the scores of the
emitted flags; the returned probability caps it at 100 and the
company-legitimacy detail subtracts the uncapped value from 100. -/
theorem performScamAnalysis_score_eq (j : JobInput) :
    (performScamAnalysis j).scamProbability =
      min (flagScoreSum (performScamAnalysis j).warningFlags) 100 ∧
    (performScamAnalysis j).details.companyLegitimacy.score =
      100 - ((flagScoreSum (performScamAnalysis j).warningFlags : Nat) : Int) := by
  have h := analyzeWebsite_sum j _ (analyzeEmail_sum j _ (analyzeDescription_sum j))
  unfold performScamAnalysis
  dsimp only
  exact ⟨by rw [h], by rw [h]⟩

theorem jsToLower_length (s : String) : (jsToLower s).length = s.length := by
  rcases s with ⟨data⟩
  simp [jsToLower, String.length]

theorem performScamAnalysis_flags (j : JobInput) :
    (performScamAnalysis j).warningFlags =
      (analyzeWebsite j (analyzeEmail j (analyzeDescription j))).1 := rfl

theorem analyzeDescription_not_truthy (j : JobInput)
    (h : truthy j.jobDescription = false) : analyzeDescription j = ([], 0) := by
  unfold analyzeDescription
  simp [h]

theorem mem_analyzeEmail_iff (j : JobInput) (st : List WarningFlag × Nat)
    (f : WarningFlag) :
    f ∈ (analyzeEmail j st).1 ↔ f ∈ st.1 ∨
      (f = suspiciousEmailFlag ∧ truthy j.companyEmail = true ∧
        domainIsFree (emailDomain (jsToLower (j.companyEmail.getD ""))) = true) := by
  unfold analyzeEmail
  dsimp only
  split_ifs <;> simp_all

theorem mem_analyzeWebsite_iff (j : JobInput) (st : List WarningFlag × Nat)
    (f : WarningFlag) :
    f ∈ (analyzeWebsite j st).1 ↔ f ∈ st.1 ∨
      (f = noCompanyPresenceFlag ∧
        (!truthy j.companyWebsite || (j.companyWebsite.getD "").length = 0) = true) := by
  unfold analyzeWebsite
  split_ifs <;> simp_all

theorem vague_mem_analyzeDescription_iff (j : JobInput) :
    (∃ f ∈ (analyzeDescription j).1, f.type = "vague_description") ↔
      truthy j.jobDescription = true ∧
        (jsToLower (j.jobDescription.getD "")).length < 100 := by
  unfold analyzeDescription
  dsimp only
  split_ifs <;>
    simp_all [unrealisticSalaryFlag, upfrontPaymentFlag, pressureTacticsFlag,
      vagueDescriptionFlag, personalInfoRequestFlag]

theorem truthy_some_iff (s : String) : truthy (some s) = true ↔ s ≠ "" := by
  simp [truthy]
  rw [Bool.eq_false_iff]
  exact not_congr ⟨fun h => (String.isEmpty_iff s).mp h,
    fun h => (String.isEmpty_iff s).mpr h⟩

/-- An input that triggers all seven rules: the short description contains
keywords of four text rules and is under 100 characters, the company email
uses a free provider and no company website is given. -/
def overloadedInput : JobInput :=
  { jobUrl := none
    jobDescription := some "pay ssn act now make money fast"
    companyEmail := some "boss@gmail.com"
    companyWebsite := none }

/-- C1: for every submission after scoring, the derived risk level is a
pure function of the detected flag severities and the probability, exactly
as the spec table states: high on at least two detected high-severity flags
or probability at least 70, else medium on at least one detected
high-severity flag, at least two detected medium-severity flags, or
probability at least 40, else low. -/
theorem C1_riskLevel_matches_spec (warningFlags : List WarningFlag)
    (probability : Nat) :
    calculateRiskLevel warningFlags probability =
      specRiskLevel warningFlags probability := by
  unfold calculateRiskLevel specRiskLevel detectedWithSeverity
  dsimp only
  simp only [Bool.or_eq_true, decide_eq_true_eq, ge_iff_le, or_assoc]

/-- C2: the returned scam probability always equals the sum of the scores
of the triggered rules capped by `min` at 100; in particular it lies in
`[0, 100]`. -/
theorem C2_probability_is_min_capped (j : JobInput) :
    (performScamAnalysis j).scamProbability =
      min (flagScoreSum (performScamAnalysis j).warningFlags) 100 ∧
    (performScamAnalysis j).scamProbability ≤ 100 ∧
    0 ≤ (performScamAnalysis j).scamProbability := by
  obtain ⟨h1, _⟩ := performScamAnalysis_score_eq j
  exact ⟨h1, by rw [h1]; exact Nat.min_le_right _ _, Nat.zero_le _⟩

/-- A submission that carries a job URL and nothing else. -/
def urlOnlyInput (url : String) : JobInput :=
  { jobUrl := some url
    jobDescription := none
    companyEmail := none
    companyWebsite := none }

/-- C9: a submission carrying only a job URL yields exactly the
`no_company_presence` flag with probability 10, and the URL value has no
influence on the analysis result. -/
theorem C9_url_only_submission (url : String) :
    (performScamAnalysis (urlOnlyInput url)).warningFlags =
      [noCompanyPresenceFlag] ∧
    (performScamAnalysis (urlOnlyInput url)).scamProbability = 10 ∧
    ∀ url2 : String,
      performScamAnalysis (urlOnlyInput url2) =
        performScamAnalysis (urlOnlyInput url) :=
  ⟨rfl, rfl, fun _ => rfl⟩

/-- C10: the analysis detail `companyLegitimacy.score` is 100 minus the
uncapped sum of the triggered rule scores, and on an input triggering all
seven rules (total 135) it comes out as -35, below the 0..100 range the
schema declares. -/
theorem C10_companyLegitimacy_score_negative :
    (∀ j : JobInput, (performScamAnalysis j).details.companyLegitimacy.score =
      100 - (flagScoreSum (performScamAnalysis j).warningFlags : Int)) ∧
    (performScamAnalysis overloadedInput).details.companyLegitimacy.score = -35 ∧
    (performScamAnalysis overloadedInput).details.companyLegitimacy.score < 0 := by
  refine ⟨fun j => (performScamAnalysis_score_eq j).2, ?_, ?_⟩ <;> decide

/-- C7: an empty or absent description triggers none of the five
text-based rules, and the `vague_description` flag is emitted exactly when
a non-empty description is present and shorter than 100 characters. -/
theorem C7_empty_description_triggers_no_text_rules (j : JobInput) :
    (j.jobDescription = none ∨ j.jobDescription = some "" →
      ∀ f ∈ (performScamAnalysis j).warningFlags,
        f.type ≠ "unrealistic_salary" ∧ f.type ≠ "upfront_payment" ∧
        f.type ≠ "pressure_tactics" ∧ f.type ≠ "vague_description" ∧
        f.type ≠ "personal_info_request") ∧
    ((∃ f ∈ (performScamAnalysis j).warningFlags,
        f.type = "vague_description") ↔
      ∃ d, j.jobDescription = some d ∧ d ≠ "" ∧ d.length < 100) := by
  constructor
  · intro hd f hf
    have htruthy : truthy j.jobDescription = false := by
      rcases hd with h | h
      · simp [h, truthy]
      · simp [h, truthy]
        decide
    rw [performScamAnalysis_flags, mem_analyzeWebsite_iff] at hf
    rcases hf with hf | ⟨hf, _⟩
    · rw [mem_analyzeEmail_iff] at hf
      rcases hf with hf | ⟨hf, _⟩
      · rw [analyzeDescription_not_truthy j htruthy] at hf
        simp at hf
      · subst hf
        simp [suspiciousEmailFlag]
    · subst hf
      simp [noCompanyPresenceFlag]
  · rw [performScamAnalysis_flags]
    constructor
    · rintro ⟨f, hf, hty⟩
      rw [mem_analyzeWebsite_iff] at hf
      rcases hf with hf | ⟨hf, _⟩
      · rw [mem_analyzeEmail_iff] at hf
        rcases hf with hf | ⟨hf, _⟩
        · obtain ⟨ht, hlen⟩ :=
            (vague_mem_analyzeDescription_iff j).mp ⟨f, hf, hty⟩
          rcases hj : j.jobDescription with _ | d
          · rw [hj] at ht
            simp [truthy] at ht
          · rw [hj] at ht hlen
            refine ⟨d, rfl, (truthy_some_iff d).mp ht, ?_⟩
            simpa [jsToLower_length] using hlen
        · subst hf
          simp [suspiciousEmailFlag] at hty
      · subst hf
        simp [noCompanyPresenceFlag] at hty
    · rintro ⟨d, hj, hne, hlen⟩
      obtain ⟨f, hf, hty⟩ := (vague_mem_analyzeDescription_iff j).mpr
        ⟨by rw [hj]; exact (truthy_some_iff d).mpr hne,
         by rw [hj]; simpa [jsToLower_length] using hlen⟩
      refine ⟨f, ?_, hty⟩
      rw [mem_analyzeWebsite_iff]
      refine Or.inl ?_
      rw [mem_analyzeEmail_iff]
      exact Or.inl hf

/-- A submission whose description is present, non-empty and short. -/
def shortDescInput : JobInput :=
  { jobUrl := none
    jobDescription := some "short gig"
    companyEmail := none
    companyWebsite := none }

/-- Witness for C7 at concrete inputs: a URL-only submission emits no
text-rule flag, and a short non-empty description emits
`vague_description`. -/
theorem C7_witness :
    noCompanyPresenceFlag.type ≠ "vague_description" ∧
    (∃ d, shortDescInput.jobDescription = some d ∧ d ≠ "" ∧ d.length < 100) :=
  ⟨((C7_empty_description_triggers_no_text_rules (urlOnlyInput "u")).1
      (Or.inl rfl) noCompanyPresenceFlag (by decide)).2.2.2.1,
   (C7_empty_description_triggers_no_text_rules shortDescInput).2.mp (by decide)⟩

/-- C4: the lockout counter state machine of `incLoginAttempts` and
`resetLoginAttempts`: a failure while unlocked below the threshold only
increments; the fifth consecutive failure locks for two hours; a failure
after the lock elapsed restarts the counter at 1 and clears the lock;
success resets to 0 and clears the lock; a failure while still locked does
not move the lock timestamp. -/
theorem C4_lockout_state_machine (u : UserState) (now t : Nat) :
    (u.lockUntil = none → u.loginAttempts < 4 →
      incLoginAttempts u now =
        { loginAttempts := u.loginAttempts + 1, lockUntil := none }) ∧
    (u.lockUntil = none → u.loginAttempts = 4 →
      incLoginAttempts u now =
        { loginAttempts := 5, lockUntil := some (now + 2 * 60 * 60 * 1000) }) ∧
    (u.lockUntil = some t → t < now →
      incLoginAttempts u now = { loginAttempts := 1, lockUntil := none }) ∧
    (resetLoginAttempts u = { loginAttempts := 0, lockUntil := none }) ∧
    (u.lockUntil = some t → now < t →
      (incLoginAttempts u now).lockUntil = some t) := by
  refine ⟨?_, ?_, ?_, rfl, ?_⟩
  · intro hnone hlt
    unfold incLoginAttempts lockExpired isLocked maxAttempts
    rw [hnone]
    simp
    omega
  · intro hnone heq
    unfold incLoginAttempts lockExpired isLocked maxAttempts lockTime
    rw [hnone]
    simp [heq]
  · intro hsome hlt
    unfold incLoginAttempts lockExpired
    rw [hsome]
    simp [hlt]
  · intro hsome hnow
    unfold incLoginAttempts lockExpired isLocked
    rw [hsome]
    have h1 : ¬t < now := by omega
    simp [h1, hnow]

/-- Witness for C4: all five transitions evaluated at concrete states. -/
theorem C4_witness :
    incLoginAttempts { loginAttempts := 2, lockUntil := none } 1000 =
      { loginAttempts := 3, lockUntil := none } ∧
    incLoginAttempts { loginAttempts := 4, lockUntil := none } 1000 =
      { loginAttempts := 5, lockUntil := some 7201000 } ∧
    incLoginAttempts { loginAttempts := 7, lockUntil := some 500 } 1000 =
      { loginAttempts := 1, lockUntil := none } ∧
    resetLoginAttempts { loginAttempts := 3, lockUntil := some 9999 } =
      { loginAttempts := 0, lockUntil := none } ∧
    (incLoginAttempts { loginAttempts := 5, lockUntil := some 5000 } 1000).lockUntil =
      some 5000 :=
  ⟨(C4_lockout_state_machine { loginAttempts := 2, lockUntil := none } 1000 0).1
      rfl (by decide),
   (C4_lockout_state_machine { loginAttempts := 4, lockUntil := none } 1000 0).2.1
      rfl rfl,
   (C4_lockout_state_machine { loginAttempts := 7, lockUntil := some 500 } 1000 500).2.2.1
      rfl (by decide),
   (C4_lockout_state_machine { loginAttempts := 3, lockUntil := some 9999 } 0 0).2.2.2.1,
   (C4_lockout_state_machine { loginAttempts := 5, lockUntil := some 5000 } 1000 5000).2.2.2.2
      rfl (by decide)⟩

/-- C8: for an authorized requester (owner or admin), the first view of a
scan sets `reportViewed` and records `reportViewedAt`, and any later view
returns the stored document unchanged. -/
theorem C8_view_marking_idempotent (requester : Requester) (d : JobScanDoc)
    (now now2 : Nat) (hauth : d.user = requester.id ∨ requester.role = "admin") :
    (d.reportViewed = false →
      getJobScan requester (some d) now =
        (some { d with reportViewed := true, reportViewedAt := some now }, 200)) ∧
    (∀ d2, getJobScan requester (some d) now = (some d2, 200) →
      getJobScan requester (some d2) now2 = (some d2, 200)) := by
  have hcond : (d.user != requester.id && requester.role != "admin") = false := by
    rcases hauth with h | h <;> simp [h]
  constructor
  · intro hview
    unfold getJobScan
    simp [hcond, hview]
  · intro d2 h2
    unfold getJobScan at h2 ⊢
    simp [hcond] at h2 ⊢
    rcases hv : d.reportViewed with _ | _
    · simp [hv] at h2
      have hcond2 : (d2.user != requester.id && requester.role != "admin") = false := by
        rw [← h2]
        exact hcond
      have hv2 : d2.reportViewed = true := by rw [← h2]
      simp [hcond2, hv2]
      simp at hcond2
      exact hcond2
    · simp [hv] at h2
      have hcond2 : (d2.user != requester.id && requester.role != "admin") = false := by
        rw [← h2]
        exact hcond
      have hv2 : d2.reportViewed = true := by rw [← h2]; exact hv
      simp [hcond2, hv2]
      simp at hcond2
      exact hcond2

/-- A concrete unviewed scan document owned by `u1`. -/
def sampleDoc : JobScanDoc :=
  { user := "u1", status := "completed", riskLevel := "low",
    scamProbability := 0, warningFlags := [], reportViewed := false,
    reportViewedAt := none, isReported := false, reportReason := none }

/-- Witness for C8: the owner's first and second view of a concrete scan. -/
theorem C8_witness :
    getJobScan { id := "u1", role := "user" } (some sampleDoc) 50 =
      (some { sampleDoc with reportViewed := true, reportViewedAt := some 50 }, 200) ∧
    getJobScan { id := "u1", role := "user" }
        (some { sampleDoc with reportViewed := true, reportViewedAt := some 50 }) 99 =
      (some { sampleDoc with reportViewed := true, reportViewedAt := some 50 }, 200) := by
  have h := C8_view_marking_idempotent { id := "u1", role := "user" } sampleDoc 50 99
    (Or.inl rfl)
  have h1 := h.1 rfl
  exact ⟨h1, h.2 _ h1⟩

/-- The claim of C5 as stated is false: a requester who is neither the
owner nor an admin still gets a 200 response from `reportJob`, and the
stored document is modified (`isReported` flips to true). -/
theorem C5_counterexample :
    (reportJob { id := "u2", role := "user" } (some sampleDoc) (some "spam")).2 = 200 ∧
    (reportJob { id := "u2", role := "user" } (some sampleDoc) (some "spam")).2 ≠ 403 ∧
    (reportJob { id := "u2", role := "user" } (some sampleDoc) (some "spam")).1 =
      some { sampleDoc with isReported := true, reportReason := some "spam" } ∧
    sampleDoc.isReported = false := by
  refine ⟨rfl, by decide, rfl, rfl⟩

/-- C5 amended: `reportJob` sets `isReported` and `reportReason` for any
authenticated requester on any existing submission and responds 200; the
handler enforces no ownership or role restriction. -/
theorem C5_report_sets_fields_for_any_requester (requester : Requester)
    (d : JobScanDoc) (reason : Option String) :
    reportJob requester (some d) reason =
      (some { d with isReported := true, reportReason := reason }, 200) := rfl

/-- C3: when the scoring step of `createJobScan` throws, the persisted
submission keeps status `analyzing` — the code has no transition to
`failed` — while the client receives an error response; on success the
status becomes `completed`. -/
theorem C3_scoring_failure_leaves_analyzing (owner : String) (j : JobInput) :
    (createJobScan owner j true).1.status = "analyzing" ∧
    (createJobScan owner j true).1.status ≠ "failed" ∧
    (createJobScan owner j true).2 = 500 ∧
    (createJobScan owner j false).1.status = "completed" :=
  ⟨rfl, (by decide : ("analyzing" : String) ≠ "failed"), rfl, rfl⟩

/-- A store of 51 completed high-risk scans with distinct timestamps. -/
def bigStore : List StoredScan :=
  (List.range 51).map fun i =>
    { user := "u", status := "completed", riskLevel := "high",
      scamProbability := 80, warningFlags := [], companyName := none,
      jobTitle := none, location := none, createdAt := i }

/-- The claim of C6 as stated is false: with a client-supplied limit of 51
and 51 qualifying scans in the store, the alerts feed returns 51 entries —
the code applies no 50 cap to the limit parameter. -/
theorem C6_counterexample :
    (getAlerts bigStore (some 51)).length = 51 ∧ 50 < 51 := by
  constructor
  · decide
  · decide

/-- C6 amended: every alerts-feed entry is the safe projection of a stored
scan that is `completed` with risk `high` or `medium` (so it carries only
the selected public fields and only detected flags), entries are sorted
newest first, and the number of entries never exceeds the effective
client-supplied limit (default 10, zero treated as 10) — but no 50 cap is
applied. -/
theorem C6_alerts_feed_properties (store : List StoredScan)
    (limitParam : Option Nat) :
    (∀ a ∈ getAlerts store limitParam, ∃ s ∈ store,
      alertsFilter s = true ∧ a = formatAlert s ∧
      (a.riskLevel = "high" ∨ a.riskLevel = "medium")) ∧
    List.Pairwise (fun a b : Alert => b.detectedAt ≤ a.detectedAt)
      (getAlerts store limitParam) ∧
    (getAlerts store limitParam).length ≤ effectiveLimit limitParam := by
  refine ⟨?_, ?_, ?_⟩
  · intro a ha
    unfold getAlerts at ha
    dsimp only at ha
    obtain ⟨s, hs, rfl⟩ := List.mem_map.mp ha
    have hs2 : s ∈ (store.filter alertsFilter).insertionSort newestFirst :=
      List.take_subset _ _ hs
    have hs3 : s ∈ store.filter alertsFilter :=
      (List.mem_insertionSort newestFirst).mp hs2
    obtain ⟨hmem, hfilt⟩ := List.mem_filter.mp hs3
    refine ⟨s, hmem, hfilt, rfl, ?_⟩
    have : (s.riskLevel == "high" || s.riskLevel == "medium") = true := by
      unfold alertsFilter at hfilt
      exact (Bool.and_eq_true_iff.mp hfilt).1
    simpa [formatAlert] using this
  · unfold getAlerts
    dsimp only
    rw [List.pairwise_map]
    have hsorted : List.Pairwise newestFirst
        ((store.filter alertsFilter).insertionSort newestFirst) :=
      List.sorted_insertionSort newestFirst (store.filter alertsFilter)
    have htake := List.Pairwise.sublist
      (List.take_sublist (effectiveLimit limitParam) _) hsorted
    exact htake.imp fun hab => hab
  · unfold getAlerts
    dsimp only
    rw [List.length_map]
    exact List.length_take_le _ _

/-- Witness for C6 at a concrete store: the feed of `bigStore` with the
default limit has 10 entries, each a completed high-risk projection. -/
theorem C6_witness :
    (getAlerts bigStore none).length ≤ effectiveLimit none ∧
    ∃ s ∈ bigStore, alertsFilter s = true ∧
      (getAlerts bigStore none).headI = formatAlert s ∧
      ((getAlerts bigStore none).headI.riskLevel = "high" ∨
        (getAlerts bigStore none).headI.riskLevel = "medium") := by
  refine ⟨(C6_alerts_feed_properties bigStore none).2.2, ?_⟩
  have h := (C6_alerts_feed_properties bigStore none).1
    (getAlerts bigStore none).headI (by decide)
  exact h

end JobGuard
